import Mathlib

/-!
Verification development for the gitbox repository (Rust sources under src/).
The Rust code is shallowly embedded: pure control flow is translated into
Lean functions; filesystem and subprocess effects are made explicit, either
as environment records describing the outcome of each external call or as an
explicit filesystem state that the operations transform.
-/

set_option autoImplicit false

/-! ## Generic association-list operations

Rust `HashMap<String, V>` values are embedded as association lists with
insert-replaces-existing-key semantics, matching `HashMap::insert`,
`HashMap::get`, `HashMap::remove`.
-/

/-- Lookup of a key in an association list (embeds `HashMap::get`). -/

def lookupKV {κ α : Type} [DecidableEq κ] (l : List (κ × α)) (k : κ) : Option α :=
  match l with
  | [] => none
  | (k', v) :: t => if k' = k then some v else lookupKV t k

/-- Insert that replaces any existing entry with the same key
(embeds `HashMap::insert`). -/

def insertKV {κ α : Type} [DecidableEq κ] (l : List (κ × α)) (k : κ) (v : α) :
    List (κ × α) :=
  match l with
  | [] => [(k, v)]
  | (k', v') :: t => if k' = k then (k, v) :: t else (k', v') :: insertKV t k v

/-- Removal of the entry with the given key (embeds `HashMap::remove`). -/

def eraseKV {κ α : Type} [DecidableEq κ] (l : List (κ × α)) (k : κ) :
    List (κ × α) :=
  match l with
  | [] => []
  | (k', v') :: t => if k' = k then t else (k', v') :: eraseKV t k

/-! ## Substring containment

Rust `str::contains(&str)` tests substring containment; embedded over the
character lists of the two strings.
-/

/-- Substring test on character lists: `sub` occurs contiguously in `hay`. -/

def listContainsSub : List Char → List Char → Bool
  | [], sub => sub.isEmpty
  | h :: t, sub => sub.isPrefixOf (h :: t) || listContainsSub t sub

/-- Embeds Rust `haystack.contains(needle)` (substring containment). -/

def strContains (hay sub : String) : Bool :=
  listContainsSub hay.data sub.data

/-! ## Repository Resolver

Embeds `RepoManager::find_repository` (src/repo.rs lines 416-460). The list
of known repositories is the (sorted) result of `list_repos`; it is passed in
as a parameter. Errors carry the structured data that the Rust code formats
into its `anyhow` messages.
-/

/-- Resolver failure: either no repository matched (carrying the "Available
repositories" text, which is "none" for an empty known set), or several
matched (carrying the list of candidates). -/

inductive FindError where
  | notFound (partialName : String) (available : String)
  | ambiguousName (partialName : String) (candidates : List String)
  deriving DecidableEq, Repr

/-- Embeds `RepoManager::find_repository`: exact match first, then forward
substring containment, then reverse containment. -/

def find_repository (repos : List String) (partialName : String) :
    Except FindError String :=
  if repos.any (fun r => r == partialName) then
    .ok partialName
  else
    let fwdMatches := repos.filter (fun repo => strContains repo partialName)
    match fwdMatches with
    | [] =>
        let reverseMatches := repos.filter (fun repo => strContains partialName repo)
        match reverseMatches with
        | [m] => .ok m
        | [] =>
            .error (.notFound partialName
              (if repos.isEmpty then "none" else String.intercalate ", " repos))
        | ms => .error (.ambiguousName partialName ms)
    | [m] => .ok m
    | ms => .error (.ambiguousName partialName ms)

/-- Modelled from the spec (section 4.3): the resolver algorithm exactly as
the specification words it, with the forward pass decided by candidate
counts. Used only to compare against `find_repository`. -/

def resolveSpec (partialName : String) (known : List String) :
    Except FindError String :=
  if known.any (fun r => r == partialName) then
    .ok partialName
  else
    let fwd := known.filter (fun r => strContains r partialName)
    if fwd.length = 1 then .ok fwd.headI
    else if 2 ≤ fwd.length then .error (.ambiguousName partialName fwd)
    else
      let rev := known.filter (fun r => strContains partialName r)
      if rev.length = 1 then .ok rev.headI
      else if 2 ≤ rev.length then .error (.ambiguousName partialName rev)
      else
        .error (.notFound partialName
          (if known.isEmpty then "none" else String.intercalate ", " known))

/-! ## Metadata Store

Embeds `GitboxMetadata` and `FileInfo` (src/sync.rs lines 8-83). Paths are
embedded as their string form (the Rust code keys the map by
`to_string_lossy`). The `files` HashMap is an association list with
insert-replace semantics. The serde_json / toml parsers and the uuid
generator are external crates; they enter the embedding as parameters:
`parseJson` / `parseToml` map raw file content to an optional record, and the
freshly generated id is an argument of `add_file`.
-/

/-- Embeds `FileInfo` (src/sync.rs lines 14-20). -/

structure FileInfo where
  id : String
  original_path : String
  synced_path : String
  is_directory : Bool
  deriving DecidableEq, Repr

/-- Embeds `GitboxMetadata` (src/sync.rs lines 8-12). -/

structure GitboxMetadata where
  files : List (String × FileInfo)
  repo_name : Option String
  deriving DecidableEq, Repr

/-- Embeds `GitboxMetadata::new`. -/

def GitboxMetadata.new : GitboxMetadata :=
  { files := [], repo_name := none }

/-- Loading failure: the record file was present but parsed in neither the
canonical (JSON) nor the legacy (TOML) encoding. -/

inductive MetaError where
  | metadataCorrupt
  deriving DecidableEq, Repr

/-- Embeds `GitboxMetadata::load_from_dir` (src/sync.rs lines 30-49). The
on-disk state of the record file is `none` when the file does not exist and
`some content` otherwise (a successful read is assumed; read IO failure is
outside the embedding). JSON is tried first, TOML as read-only fallback. -/

def GitboxMetadata.load_from_dir
    (parseJson parseToml : String → Option GitboxMetadata)
    (disk : Option String) : Except MetaError GitboxMetadata :=
  match disk with
  | some content =>
      match parseJson content with
      | some metadata => .ok metadata
      | none =>
          match parseToml content with
          | some metadata => .ok metadata
          | none => .error .metadataCorrupt
  | none => .ok GitboxMetadata.new

/-- Embeds `GitboxMetadata::save_to_dir` (src/sync.rs lines 51-58): the
written content is unconditionally the canonical (JSON) serialization. The
serializer is the external serde_json crate, passed as `encodeJson`. -/

def GitboxMetadata.save_to_dir (encodeJson : GitboxMetadata → String)
    (m : GitboxMetadata) : String :=
  encodeJson m

/-- Embeds `GitboxMetadata::add_file` (src/sync.rs lines 60-72); `id` is the
freshly generated uuid (external crate), returned alongside the new record. -/

def GitboxMetadata.add_file (m : GitboxMetadata) (id : String)
    (original_path synced_path : String) (is_directory : Bool) :
    GitboxMetadata × String :=
  let file_info : FileInfo :=
    { id := id, original_path := original_path, synced_path := synced_path,
      is_directory := is_directory }
  ({ m with files := insertKV m.files original_path file_info }, id)

/-- Embeds `GitboxMetadata::remove_file` (src/sync.rs lines 74-77). -/

def GitboxMetadata.remove_file (m : GitboxMetadata) (original_path : String) :
    GitboxMetadata × Option FileInfo :=
  ({ m with files := eraseKV m.files original_path },
   lookupKV m.files original_path)

/-- Embeds `GitboxMetadata::get_file` (src/sync.rs lines 79-82). -/

def GitboxMetadata.get_file (m : GitboxMetadata) (original_path : String) :
    Option FileInfo :=
  lookupKV m.files original_path

/-! ## Synchronization Protocol

Embeds `RepoManager::sync_repo` (src/repo.rs lines 533-687), the part after
name resolution (`find_repository`) and the repository-directory existence
check. Every external `git` subprocess call is an effect; its outcome
(success flag, stdout, stderr) is supplied by a `GitEnv` record with one
field per call site, in the order the straight-line Rust code issues them.
The function returns the operation result together with the trace of git
invocations actually performed.
-/

/-- Outcome of one subprocess invocation (`std::process::Output`). -/

structure CmdResult where
  success : Bool
  stdout : String
  stderr : String
  deriving DecidableEq, Repr

/-- One `GitEnv` field per git call site in `sync_repo`, in program order:
remote get-url check, branch rev-parse, checkout -b, initial pull, status
--porcelain, add ., commit, initial push -u, recovery pull --no-rebase
--allow-unrelated-histories, and the retry push. -/

structure GitEnv where
  remoteGetUrl : CmdResult
  revParseBranch : CmdResult
  checkoutNewBranch : CmdResult
  pullInitial : CmdResult
  statusPorcelain : CmdResult
  addAll : CmdResult
  commitChanges : CmdResult
  pushInitial : CmdResult
  pullMergeRecovery : CmdResult
  pushRetry : CmdResult
  deriving DecidableEq, Repr

/-- The git invocations `sync_repo` can perform, used for execution traces. -/

inductive GitStep where
  | remoteCheck
  | branchCheck
  | createBranch
  | pull
  | status
  | add
  | commit
  | push
  | pullMerge
  | retryPush
  deriving DecidableEq, Repr

/-- The failure cases of `sync_repo`, each carrying the stderr text the Rust
code embeds in its anyhow message. -/

inductive SyncErr where
  | noRemoteConfigured
  | branchCreateFailed (stderr : String)
  | statusFailed
  | addFailed (stderr : String)
  | commitFailed (stderr : String)
  | pushFailed (stderr : String)
  | pullMergeFailed (stderr : String)
  | pushRetryFailed (stderr : String)
  deriving DecidableEq, Repr

/-- The push tail of `sync_repo` (src/repo.rs lines 640-686): initial push,
and on a stderr mentioning "non-fast-forward" or "rejected" a single
pull-merge (allowing unrelated histories) followed by a single retry push.
`t` is the trace accumulated by the earlier steps. -/

def sync_repo_push (env : GitEnv) (t : List GitStep) :
    Except SyncErr Unit × List GitStep :=
  let t1 := t ++ [GitStep.push]
  if env.pushInitial.success then (.ok (), t1)
  else if strContains env.pushInitial.stderr "non-fast-forward" ||
          strContains env.pushInitial.stderr "rejected" then
    let t2 := t1 ++ [GitStep.pullMerge]
    if env.pullMergeRecovery.success then
      let t3 := t2 ++ [GitStep.retryPush]
      if env.pushRetry.success then (.ok (), t3)
      else (.error (.pushRetryFailed env.pushRetry.stderr), t3)
    else (.error (.pullMergeFailed env.pullMergeRecovery.stderr), t2)
  else (.error (.pushFailed env.pushInitial.stderr), t1)

/-- Embeds `RepoManager::sync_repo` after name resolution: remote check,
branch ensure, tolerated pull, status check, conditional stage-and-commit,
then the push tail. The initial pull outcome (`pullInitial`) only selects
log output in the Rust code, so the protocol continues regardless of it. -/

def sync_repo (env : GitEnv) : Except SyncErr Unit × List GitStep :=
  if env.remoteGetUrl.success then
    let tBranch :=
      if env.revParseBranch.success then [GitStep.remoteCheck, GitStep.branchCheck]
      else [GitStep.remoteCheck, GitStep.branchCheck, GitStep.createBranch]
    if env.revParseBranch.success || env.checkoutNewBranch.success then
      let tStatus := tBranch ++ [GitStep.pull, GitStep.status]
      if env.statusPorcelain.success then
        if env.statusPorcelain.stdout = "" then
          sync_repo_push env tStatus
        else
          let tAdd := tStatus ++ [GitStep.add]
          if env.addAll.success then
            let tCommit := tAdd ++ [GitStep.commit]
            if env.commitChanges.success then
              sync_repo_push env tCommit
            else (.error (.commitFailed env.commitChanges.stderr), tCommit)
          else (.error (.addFailed env.addAll.stderr), tAdd)
      else (.error .statusFailed, tBranch ++ [GitStep.pull, GitStep.status])
    else (.error (.branchCreateFailed env.checkoutNewBranch.stderr), tBranch)
  else (.error .noRemoteConfigured, [GitStep.remoteCheck])

/-- A concrete environment whose initial push is rejected with "rejected" in
stderr and whose retry push fails as well. -/

def envC1W : GitEnv :=
  { remoteGetUrl := ⟨true, "", ""⟩
    revParseBranch := ⟨true, "", ""⟩
    checkoutNewBranch := ⟨true, "", ""⟩
    pullInitial := ⟨true, "", ""⟩
    statusPorcelain := ⟨true, "", ""⟩
    addAll := ⟨true, "", ""⟩
    commitChanges := ⟨true, "", ""⟩
    pushInitial := ⟨false, "", "rejected"⟩
    pullMergeRecovery := ⟨true, "", ""⟩
    pushRetry := ⟨false, "", "remote rejected again"⟩ }

/-- A concrete environment with no remote configured. -/

def envC8W : GitEnv :=
  { remoteGetUrl := ⟨false, "", "error: No such remote"⟩
    revParseBranch := ⟨true, "", ""⟩
    checkoutNewBranch := ⟨true, "", ""⟩
    pullInitial := ⟨true, "", ""⟩
    statusPorcelain := ⟨true, "", ""⟩
    addAll := ⟨true, "", ""⟩
    commitChanges := ⟨true, "", ""⟩
    pushInitial := ⟨true, "", ""⟩
    pullMergeRecovery := ⟨true, "", ""⟩
    pushRetry := ⟨true, "", ""⟩ }

/-! ## Link Strategy filesystem model

Embeds `create_link` and `create_symlink` (src/sync.rs lines 85-141) over an
explicit filesystem state. Paths are component lists; the state maps a path
to its directory entry: regular file, directory, or symbolic link (storing
its target path, unresolved). `Path::exists` and `Path::is_dir` follow
symbolic links, modelled with fuel bounded by the state size. OS-level
outcomes that do not depend on the modelled state (a cross-device hard link,
a permission failure of symlink creation) come from an `FsEnv` record. -/

/-- A directory entry: regular file, directory, or symbolic link. -/

inductive FsNode where
  | file
  | dir
  | symlinkTo (target : List String)
  deriving DecidableEq, Repr

/-- Filesystem state: association of paths to entries. -/

abbrev FsMap := List (List String × FsNode)

/-- OS-level outcomes not determined by the modelled state: whether a hard
link is possible (it is not across filesystems) and whether creating a
symlink is permitted. -/

structure FsEnv where
  hardLinkOk : Bool
  symlinkOk : Bool
  deriving DecidableEq, Repr

/-- Symlink-following existence test with fuel (embeds `Path::exists`, which
resolves symbolic links; a dangling or cyclic symlink does not exist). -/

def resolveExists (fs : FsMap) : Nat → List String → Bool
  | 0, _ => false
  | fuel + 1, p =>
      match lookupKV fs p with
      | none => false
      | some .file => true
      | some .dir => true
      | some (.symlinkTo t) => resolveExists fs fuel t

/-- Embeds `Path::exists`. -/

def pathExists (fs : FsMap) (p : List String) : Bool :=
  resolveExists fs (fs.length + 1) p

/-- Symlink-following directory test with fuel (embeds `Path::is_dir`). -/

def resolveIsDir (fs : FsMap) : Nat → List String → Bool
  | 0, _ => false
  | fuel + 1, p =>
      match lookupKV fs p with
      | none => false
      | some .file => false
      | some .dir => true
      | some (.symlinkTo t) => resolveIsDir fs fuel t

/-- Embeds `Path::is_dir`. -/

def pathIsDir (fs : FsMap) (p : List String) : Bool :=
  resolveIsDir fs (fs.length + 1) p

/-- Embeds `std::fs::remove_file`: unlinks a regular file or a symbolic link
(the link itself, not its target); fails on a directory or a missing path. -/

def removeFile (fs : FsMap) (p : List String) : Except String FsMap :=
  match lookupKV fs p with
  | some .file => .ok (eraseKV fs p)
  | some (.symlinkTo _) => .ok (eraseKV fs p)
  | some .dir => .error "Is a directory"
  | none => .error "No such file or directory"

/-- Embeds `std::fs::create_dir_all`: creates every missing ancestor of `p`
(and `p` itself) as a directory; fails if an ancestor exists as a
non-directory entry. -/

def createDirAll (fs : FsMap) (p : List String) : Except String FsMap :=
  (List.range p.length).foldl
    (fun acc i =>
      match acc with
      | .error e => .error e
      | .ok m =>
          let q := p.take (i + 1)
          match lookupKV m q with
          | some .dir => .ok m
          | none => .ok ((q, FsNode.dir) :: m)
          | some _ => .error "File exists")
    (.ok fs)

/-- Embeds `std::fs::hard_link`: fails if the link path is occupied, the
original does not resolve to an existing non-directory, or the environment
forbids it (cross-device). On success the link path becomes a file entry
(content sharing is not modelled). -/

def hardLink (env : FsEnv) (fs : FsMap) (original link : List String) :
    Except String FsMap :=
  if (lookupKV fs link).isSome then .error "File exists"
  else if ¬ pathExists fs original then .error "No such file or directory"
  else if pathIsDir fs original then .error "Operation not permitted"
  else if ¬ env.hardLinkOk then .error "Invalid cross-device link"
  else .ok ((link, FsNode.file) :: fs)

/-- Embeds the raw `symlink` syscall used by `create_symlink`: fails if the
link path is occupied or the environment forbids symlink creation. -/

def symlinkRaw (env : FsEnv) (fs : FsMap) (original link : List String) :
    Except String FsMap :=
  if (lookupKV fs link).isSome then .error "File exists"
  else if ¬ env.symlinkOk then .error "Permission denied"
  else .ok ((link, FsNode.symlinkTo original) :: fs)

/-- The failure cases of `create_link`, one per error-wrapping site in
src/sync.rs lines 85-141. -/

inductive LinkError where
  | removeExistingFailed (link : List String)
  | parentCreateFailed (parent : List String)
  | symlinkCreateFailed (original link : List String)
  deriving DecidableEq, Repr

/-- Which link mechanism ended up being used (the observability report). -/

inductive LinkMethod where
  | hard
  | sym
  deriving DecidableEq, Repr

/-- Embeds `create_symlink` (src/sync.rs lines 120-141): the raw symlink
call with its failure wrapped in the fatal context error. -/

def create_symlink (env : FsEnv) (fs : FsMap) (original link : List String) :
    Except LinkError FsMap :=
  match symlinkRaw env fs original link with
  | .ok fs' => .ok fs'
  | .error _ => .error (.symlinkCreateFailed original link)

/-- The tail of `create_link` after the existing-target removal block:
parent creation, then symlink for directories, otherwise hard link with
symlink fallback. -/

def create_link_after_remove (env : FsEnv) (fs : FsMap)
    (original link : List String) : Except LinkError (FsMap × LinkMethod) :=
  let parentStep : Except LinkError FsMap :=
    if link = [] then .ok fs
    else if pathExists fs link.dropLast then .ok fs
    else
      match createDirAll fs link.dropLast with
      | .ok fs' => .ok fs'
      | .error _ => .error (.parentCreateFailed link.dropLast)
  match parentStep with
  | .error e => .error e
  | .ok fs1 =>
      if pathIsDir fs1 original then
        match create_symlink env fs1 original link with
        | .ok fs2 => .ok (fs2, .sym)
        | .error e => .error e
      else
        match hardLink env fs1 original link with
        | .ok fs2 => .ok (fs2, .hard)
        | .error _ =>
            match create_symlink env fs1 original link with
            | .ok fs2 => .ok (fs2, .sym)
            | .error e => .error e

/-- Embeds `create_link` (src/sync.rs lines 85-118): remove an existing
target (via `remove_file`), then create the link, reporting the mechanism. -/

def create_link (env : FsEnv) (fs : FsMap) (original link : List String) :
    Except LinkError (FsMap × LinkMethod) :=
  if pathExists fs link then
    match removeFile fs link with
    | .ok fs1 => create_link_after_remove env fs1 original link
    | .error _ => .error (.removeExistingFailed link)
  else create_link_after_remove env fs original link

/-! ## AggregateInfo

Embeds `RepoInfo` / `AppInfo` (src/config.rs lines 93-260). Timestamps
(chrono) are abstract instants passed in as `now : Nat`; persistence
(`save`) writes the record as-is and does not change it, so it is omitted.
The on-disk repository root seen by `refresh_from_disk` is `none` when the
root directory itself does not exist and otherwise a list of its immediate
subdirectories, each with its `files/` entry count and the best-effort
result of the `git remote get-url origin` query. -/

/-- Embeds `RepoInfo` (src/config.rs lines 93-100). -/

structure RepoInfo where
  name : String
  created_at : Nat
  last_updated : Nat
  file_count : Nat
  remote_url : Option String
  deriving DecidableEq, Repr

/-- Embeds `AppInfo` (src/config.rs lines 102-110). -/

structure AppInfo where
  version : String
  created_at : Nat
  last_updated : Nat
  repositories : List (String × RepoInfo)
  total_repos : Nat
  total_files : Nat
  deriving DecidableEq, Repr

/-- One immediate subdirectory of the repository root as `refresh_from_disk`
observes it: its name, the entry count under `files/` (0 if absent), and the
remote URL query result (none if the query failed or reported no remote). -/

structure DiskRepo where
  name : String
  fileCount : Nat
  remoteUrl : Option String
  deriving DecidableEq, Repr

/-- Embeds `AppInfo::add_repository` (src/config.rs lines 156-170). -/

def AppInfo.add_repository (info : AppInfo) (name : String)
    (remote_url : Option String) (now : Nat) : AppInfo :=
  let repo_info : RepoInfo :=
    { name := name, created_at := now, last_updated := now, file_count := 0,
      remote_url := remote_url }
  let repos := insertKV info.repositories name repo_info
  { info with
    repositories := repos
    total_repos := repos.length
    last_updated := now }

/-- Embeds `AppInfo::remove_repository` (src/config.rs lines 172-179):
the removed entry's file count is subtracted from `total_files` with
saturation at zero (`usize::saturating_sub`; `Nat` subtraction is already
truncated). -/

def AppInfo.remove_repository (info : AppInfo) (name : String) (now : Nat) :
    AppInfo :=
  let total_files :=
    match lookupKV info.repositories name with
    | some repo_info => info.total_files - repo_info.file_count
    | none => info.total_files
  let repos := eraseKV info.repositories name
  { info with
    repositories := repos
    total_repos := repos.length
    total_files := total_files
    last_updated := now }

/-- Embeds `AppInfo::update_repository` (src/config.rs lines 181-193):
only acts when the repository is known; replaces the old file count,
adjusting `total_files` by saturating subtraction of the old count. -/

def AppInfo.update_repository (info : AppInfo) (name : String)
    (file_count : Nat) (now : Nat) : AppInfo :=
  match lookupKV info.repositories name with
  | some repo_info =>
      { info with
        repositories := insertKV info.repositories name
          { repo_info with file_count := file_count, last_updated := now },
        total_files := info.total_files - repo_info.file_count + file_count,
        last_updated := now }
  | none => info

/-- The record `refresh_from_disk` rebuilds for one on-disk subdirectory:
an already-known name keeps its original creation timestamp (and falls back
to the previously known remote URL when the query reported none); an unknown
name gets fresh timestamps. -/

def refreshEntry (old : List (String × RepoInfo)) (now : Nat) (d : DiskRepo) :
    RepoInfo :=
  match lookupKV old d.name with
  | some existing =>
      { name := d.name, created_at := existing.created_at, last_updated := now,
        file_count := d.fileCount,
        remote_url := d.remoteUrl.orElse (fun _ => existing.remote_url) }
  | none =>
      { name := d.name, created_at := now, last_updated := now,
        file_count := d.fileCount, remote_url := d.remoteUrl }

/-- The scan loop of `refresh_from_disk` (src/config.rs lines 201-253):
builds the fresh repository map and the total file count from the on-disk
subdirectories. -/

def scanDisk (old : List (String × RepoInfo)) (now : Nat) :
    List DiskRepo → List (String × RepoInfo) × Nat
  | [] => ([], 0)
  | d :: rest =>
      let (m, total) := scanDisk old now rest
      (insertKV m d.name (refreshEntry old now d), total + d.fileCount)

/-- Embeds `AppInfo::refresh_from_disk` (src/config.rs lines 195-260).
When the repos root directory does not exist (`disk = none`), the function
returns immediately (config.rs lines 197-199) and the record is left
entirely untouched; otherwise the rebuilt map fully replaces the previous
one and the counters are recomputed from the scan. -/

def AppInfo.refresh_from_disk (info : AppInfo) (disk : Option (List DiskRepo))
    (now : Nat) : AppInfo :=
  match disk with
  | none => info
  | some entries =>
      let scanned := scanDisk info.repositories now entries
      { info with
        repositories := scanned.1
        total_repos := scanned.1.length
        total_files := scanned.2
        last_updated := now }

theorem lookupKV_insertKV {κ α : Type} [DecidableEq κ]
    (l : List (κ × α)) (k k' : κ) (v : α) :
    lookupKV (insertKV l k v) k' = if k = k' then some v else lookupKV l k' := by
  induction l with
  | nil => simp [insertKV, lookupKV]
  | cons hd t ih =>
      obtain ⟨k0, v0⟩ := hd
      by_cases h0 : k0 = k
      · subst h0
        by_cases h1 : k0 = k'
        · subst h1; simp [insertKV, lookupKV]
        · simp [insertKV, lookupKV, h1]
      · by_cases h1 : k0 = k'
        · subst h1
          have h2 : ¬ k = k0 := fun h2 => h0 h2.symm
          simp [insertKV, lookupKV, h0, ih, h2]
        · simp [insertKV, lookupKV, h0, h1, ih]

theorem length_insertKV_of_lookup_some {κ α : Type} [DecidableEq κ]
    (l : List (κ × α)) (k : κ) (v w : α) (h : lookupKV l k = some v) :
    (insertKV l k w).length = l.length := by
  induction l with
  | nil => simp [lookupKV] at h
  | cons hd t ih =>
      obtain ⟨k0, v0⟩ := hd
      by_cases h0 : k0 = k
      · simp [insertKV, h0]
      · simp [lookupKV, h0] at h
        simp [insertKV, h0, ih h]

theorem length_insertKV_insertKV {κ α : Type} [DecidableEq κ]
    (l : List (κ × α)) (k : κ) (v w : α) :
    (insertKV (insertKV l k v) k w).length = (insertKV l k v).length := by
  apply length_insertKV_of_lookup_some (v := v)
  simp [lookupKV_insertKV]

theorem length_eraseKV_le {κ α : Type} [DecidableEq κ]
    (l : List (κ × α)) (k : κ) : (eraseKV l k).length ≤ l.length := by
  induction l with
  | nil => simp [eraseKV]
  | cons hd t ih =>
      obtain ⟨k0, v0⟩ := hd
      by_cases h0 : k0 = k
      · simp only [eraseKV, h0, if_true, List.length_cons]
        omega
      · simp only [eraseKV, h0, if_false, List.length_cons]
        omega

/-- Claim C2: the resolver resolves exactly as the specification describes:
exact match wins immediately; otherwise the forward containment pass returns
a unique candidate, fails with AmbiguousName on several, and falls to the
reverse pass on zero; the reverse pass returns a unique candidate, fails with
AmbiguousName on several, and fails with NotFound (listing all known names,
or the "none" marker for an empty set) on zero. Stated as equality with the
spec-modelled resolver. -/

theorem C2_find_repository_matches_spec (repos : List String) (p : String) :
    find_repository repos p = resolveSpec p repos := by
  unfold find_repository resolveSpec
  rcases hA : repos.any (fun r => r == p) with _ | _
  · simp only [hA, Bool.false_eq_true, if_false]
    rcases hF : repos.filter (fun repo => strContains repo p) with _ | ⟨a, _ | ⟨b, t⟩⟩
    · simp only [List.length_nil]
      rcases hR : repos.filter (fun repo => strContains p repo) with _ | ⟨c, _ | ⟨d, u⟩⟩
      · simp
      · simp [List.headI]
      · have h1 : ¬ ((c :: d :: u).length = 1) := by simp
        have h2 : 2 ≤ (c :: d :: u).length := by
          simp only [List.length_cons]
          omega
        simp [h1, h2]
    · simp [List.headI]
    · have h1 : ¬ ((a :: b :: t).length = 1) := by simp
      have h2 : 2 ≤ (a :: b :: t).length := by
        simp only [List.length_cons]
        omega
      simp [h1, h2]
  · simp [hA]

/-- Claim C3 counterexample: resolving "alpha" against the known set
consisting of "alpha" and "alpha-beta" does not yield an AmbiguousName
failure; the exact-match step returns "alpha" immediately. -/

theorem C3_counterexample_exact_match_wins :
    find_repository ["alpha", "alpha-beta"] "alpha" = .ok "alpha" := by rfl

/-- Claim C3 (amended): given the known set consisting of "alpha" and
"alpha-beta", resolving "alpha" succeeds with "alpha" via the immediate
exact-match step, even though the forward-containment pass would match both
names (as it does for the non-exact partial name "alph", which fails with
AmbiguousName listing both). -/

theorem C3_amended_exact_match_preempts_ambiguity :
    find_repository ["alpha", "alpha-beta"] "alpha" = .ok "alpha" ∧
    ["alpha", "alpha-beta"].filter (fun repo => strContains repo "alpha") =
      ["alpha", "alpha-beta"] ∧
    find_repository ["alpha", "alpha-beta"] "alph" =
      .error (.ambiguousName "alph" ["alpha", "alpha-beta"]) := by
  exact ⟨rfl, rfl, rfl⟩

/-- Claim C6: loading never fails when no record file exists (empty record);
with a file present the canonical JSON encoding is tried first, the legacy
TOML encoding is accepted as fallback on read only, and content parsing in
neither encoding fails with the metadata-corruption error; saving always
writes the canonical encoding. -/

theorem C6_load_save_encoding_contract
    (parseJson parseToml : String → Option GitboxMetadata)
    (encodeJson : GitboxMetadata → String) :
    (GitboxMetadata.load_from_dir parseJson parseToml none =
      .ok GitboxMetadata.new) ∧
    (∀ s m, parseJson s = some m →
      GitboxMetadata.load_from_dir parseJson parseToml (some s) = .ok m) ∧
    (∀ s m, parseJson s = none → parseToml s = some m →
      GitboxMetadata.load_from_dir parseJson parseToml (some s) = .ok m) ∧
    (∀ s, parseJson s = none → parseToml s = none →
      GitboxMetadata.load_from_dir parseJson parseToml (some s) =
        .error .metadataCorrupt) ∧
    (∀ m, GitboxMetadata.save_to_dir encodeJson m = encodeJson m) := by
  refine ⟨rfl, ?_, ?_, ?_, fun _ => rfl⟩
  · intro s m h
    simp [GitboxMetadata.load_from_dir, h]
  · intro s m hj ht
    simp [GitboxMetadata.load_from_dir, hj, ht]
  · intro s hj ht
    simp [GitboxMetadata.load_from_dir, hj, ht]

/-- Claim C6 witness: the contract evaluated at concrete parsers that accept
exactly one designated content string each. -/

theorem C6_load_save_encoding_contract_witness :
    GitboxMetadata.load_from_dir
      (fun s => if s = "J" then some GitboxMetadata.new else none)
      (fun s => if s = "T" then some GitboxMetadata.new else none)
      (some "T") = .ok GitboxMetadata.new ∧
    GitboxMetadata.load_from_dir
      (fun s => if s = "J" then some GitboxMetadata.new else none)
      (fun s => if s = "T" then some GitboxMetadata.new else none)
      (some "X") = .error .metadataCorrupt := by
  constructor
  · exact (C6_load_save_encoding_contract
      (fun s => if s = "J" then some GitboxMetadata.new else none)
      (fun s => if s = "T" then some GitboxMetadata.new else none)
      (fun _ => "")).2.2.1 "T" GitboxMetadata.new (by decide) (by decide)
  · exact (C6_load_save_encoding_contract
      (fun s => if s = "J" then some GitboxMetadata.new else none)
      (fun s => if s = "T" then some GitboxMetadata.new else none)
      (fun _ => "")).2.2.2.1 "X" (by decide) (by decide)

/-- Claim C7: add followed by get on the same original path returns the entry
with exactly the tracked (synced) path and directory flag passed to add, and
a second add on the same key replaces the entry, leaving the entry count
unchanged (and get then sees the second entry). -/

theorem C7_add_then_get_and_replace (m : GitboxMetadata)
    (id op sp : String) (b : Bool) (id2 sp2 : String) (b2 : Bool) :
    ((m.add_file id op sp b).1.get_file op =
      some { id := id, original_path := op, synced_path := sp,
             is_directory := b }) ∧
    (((m.add_file id op sp b).1.add_file id2 op sp2 b2).1.files.length =
      (m.add_file id op sp b).1.files.length) ∧
    (((m.add_file id op sp b).1.add_file id2 op sp2 b2).1.get_file op =
      some { id := id2, original_path := op, synced_path := sp2,
             is_directory := b2 }) := by
  refine ⟨?_, ?_, ?_⟩
  · simp [GitboxMetadata.add_file, GitboxMetadata.get_file, lookupKV_insertKV]
  · simp [GitboxMetadata.add_file, length_insertKV_insertKV]
  · simp [GitboxMetadata.add_file, GitboxMetadata.get_file, lookupKV_insertKV]

theorem sync_repo_reaches_push (env : GitEnv)
    (h1 : env.remoteGetUrl.success = true)
    (h2 : env.revParseBranch.success = true ∨ env.checkoutNewBranch.success = true)
    (h3 : env.statusPorcelain.success = true)
    (h4 : env.statusPorcelain.stdout ≠ "" →
      env.addAll.success = true ∧ env.commitChanges.success = true) :
    ∃ T, sync_repo env = sync_repo_push env T ∧
      T.count GitStep.push = 0 ∧ T.count GitStep.pullMerge = 0 ∧
      T.count GitStep.retryPush = 0 := by
  rcases hB : env.revParseBranch.success with _ | _
  · have hC : env.checkoutNewBranch.success = true := by
      rcases h2 with h | h
      · rw [hB] at h; cases h
      · exact h
    by_cases hs : env.statusPorcelain.stdout = ""
    · refine ⟨[GitStep.remoteCheck, GitStep.branchCheck, GitStep.createBranch,
        GitStep.pull, GitStep.status], ?_, by decide, by decide, by decide⟩
      simp [sync_repo, h1, hB, hC, h3, hs]
    · obtain ⟨ha, hc⟩ := h4 hs
      refine ⟨[GitStep.remoteCheck, GitStep.branchCheck, GitStep.createBranch,
        GitStep.pull, GitStep.status, GitStep.add, GitStep.commit], ?_,
        by decide, by decide, by decide⟩
      simp [sync_repo, h1, hB, hC, h3, hs, ha, hc]
  · by_cases hs : env.statusPorcelain.stdout = ""
    · refine ⟨[GitStep.remoteCheck, GitStep.branchCheck, GitStep.pull,
        GitStep.status], ?_, by decide, by decide, by decide⟩
      simp [sync_repo, h1, hB, h3, hs]
    · obtain ⟨ha, hc⟩ := h4 hs
      refine ⟨[GitStep.remoteCheck, GitStep.branchCheck, GitStep.pull,
        GitStep.status, GitStep.add, GitStep.commit], ?_,
        by decide, by decide, by decide⟩
      simp [sync_repo, h1, hB, h3, hs, ha, hc]

theorem sync_repo_push_count_le (env : GitEnv) (t : List GitStep) :
    (sync_repo_push env t).2.count GitStep.push ≤ t.count GitStep.push + 1 ∧
    (sync_repo_push env t).2.count GitStep.pullMerge ≤
      t.count GitStep.pullMerge + 1 ∧
    (sync_repo_push env t).2.count GitStep.retryPush ≤
      t.count GitStep.retryPush + 1 := by
  unfold sync_repo_push
  by_cases h1 : env.pushInitial.success = true <;>
    by_cases h2 : (strContains env.pushInitial.stderr "non-fast-forward" ||
      strContains env.pushInitial.stderr "rejected") = true <;>
    by_cases h3 : env.pullMergeRecovery.success = true <;>
    by_cases h4 : env.pushRetry.success = true <;>
    simp [h1, h2, h3, h4, List.count_append, List.count_cons, List.count_nil]

theorem sync_repo_prefix_shape (env : GitEnv) :
    (∃ T, sync_repo env = sync_repo_push env T ∧
       T.count GitStep.push = 0 ∧ T.count GitStep.pullMerge = 0 ∧
       T.count GitStep.retryPush = 0) ∨
    ((sync_repo env).2.count GitStep.push = 0 ∧
     (sync_repo env).2.count GitStep.pullMerge = 0 ∧
     (sync_repo env).2.count GitStep.retryPush = 0) := by
  rcases h1 : env.remoteGetUrl.success with _ | _
  · right
    refine ⟨?_, ?_, ?_⟩ <;> · simp [sync_repo, h1]
  · rcases hB : env.revParseBranch.success with _ | _
    · rcases hC : env.checkoutNewBranch.success with _ | _
      · right
        refine ⟨?_, ?_, ?_⟩ <;> · simp [sync_repo, h1, hB, hC]
      · rcases h3 : env.statusPorcelain.success with _ | _
        · right
          refine ⟨?_, ?_, ?_⟩ <;> · simp [sync_repo, h1, hB, hC, h3]
        · by_cases hs : env.statusPorcelain.stdout = ""
          · left
            exact sync_repo_reaches_push env h1 (Or.inr hC) h3
              (fun h => absurd hs h)
          · rcases ha : env.addAll.success with _ | _
            · right
              refine ⟨?_, ?_, ?_⟩ <;> · simp [sync_repo, h1, hB, hC, h3, hs, ha]
            · rcases hc : env.commitChanges.success with _ | _
              · right
                refine ⟨?_, ?_, ?_⟩ <;>
                  · simp [sync_repo, h1, hB, hC, h3, hs, ha, hc]
              · left
                exact sync_repo_reaches_push env h1 (Or.inr hC) h3
                  (fun _ => ⟨ha, hc⟩)
    · rcases h3 : env.statusPorcelain.success with _ | _
      · right
        refine ⟨?_, ?_, ?_⟩ <;> · simp [sync_repo, h1, hB, h3]
      · by_cases hs : env.statusPorcelain.stdout = ""
        · left
          exact sync_repo_reaches_push env h1 (Or.inl hB) h3
            (fun h => absurd hs h)
        · rcases ha : env.addAll.success with _ | _
          · right
            refine ⟨?_, ?_, ?_⟩ <;> · simp [sync_repo, h1, hB, h3, hs, ha]
          · rcases hc : env.commitChanges.success with _ | _
            · right
              refine ⟨?_, ?_, ?_⟩ <;> · simp [sync_repo, h1, hB, h3, hs, ha, hc]
            · left
              exact sync_repo_reaches_push env h1 (Or.inl hB) h3
                (fun _ => ⟨ha, hc⟩)

theorem sync_repo_trace_bounds (env : GitEnv) :
    (sync_repo env).2.count GitStep.push ≤ 1 ∧
    (sync_repo env).2.count GitStep.pullMerge ≤ 1 ∧
    (sync_repo env).2.count GitStep.retryPush ≤ 1 := by
  rcases sync_repo_prefix_shape env with ⟨T, hT, c1, c2, c3⟩ | ⟨c1, c2, c3⟩
  · obtain ⟨b1, b2, b3⟩ := sync_repo_push_count_le env T
    rw [hT]
    omega
  · omega

/-- Claim C1: whenever the initial push is rejected for a fast-forward or
non-fast-forward reason (the stderr check of the Rust code), exactly one
recovery cycle runs: the trace has exactly one initial push, exactly one
recovery pull-merge, and one retry push exactly when the pull-merge
succeeded; a failing retry fails the whole operation with the underlying
stderr, a failing pull-merge fails it with that stderr; and for every
environment whatsoever the trace never holds more than one initial push,
one pull-merge, or one retry push (no loop). -/

theorem C1_single_push_recovery (env : GitEnv)
    (h1 : env.remoteGetUrl.success = true)
    (h2 : env.revParseBranch.success = true ∨ env.checkoutNewBranch.success = true)
    (h3 : env.statusPorcelain.success = true)
    (h4 : env.statusPorcelain.stdout ≠ "" →
      env.addAll.success = true ∧ env.commitChanges.success = true)
    (h5 : env.pushInitial.success = false)
    (h6 : strContains env.pushInitial.stderr "non-fast-forward" = true ∨
          strContains env.pushInitial.stderr "rejected" = true) :
    ((sync_repo env).2.count GitStep.push = 1) ∧
    ((sync_repo env).2.count GitStep.pullMerge = 1) ∧
    ((sync_repo env).2.count GitStep.retryPush =
      if env.pullMergeRecovery.success then 1 else 0) ∧
    (env.pullMergeRecovery.success = true → env.pushRetry.success = false →
      (sync_repo env).1 = .error (.pushRetryFailed env.pushRetry.stderr)) ∧
    (env.pullMergeRecovery.success = false →
      (sync_repo env).1 = .error (.pullMergeFailed env.pullMergeRecovery.stderr)) ∧
    (∀ e : GitEnv, (sync_repo e).2.count GitStep.push ≤ 1 ∧
       (sync_repo e).2.count GitStep.pullMerge ≤ 1 ∧
       (sync_repo e).2.count GitStep.retryPush ≤ 1) := by
  obtain ⟨T, hT, c1, c2, c3⟩ := sync_repo_reaches_push env h1 h2 h3 h4
  have h6' : (strContains env.pushInitial.stderr "non-fast-forward" ||
              strContains env.pushInitial.stderr "rejected") = true := by
    rcases h6 with h | h <;> simp [h]
  refine ⟨?_, ?_, ?_, ?_, ?_, fun e => sync_repo_trace_bounds e⟩
  · rw [hT]
    rcases hpm : env.pullMergeRecovery.success with _ | _ <;>
      rcases hpr : env.pushRetry.success with _ | _ <;>
      simp [sync_repo_push, h5, h6', hpm, hpr, List.count_append,
        List.count_cons, List.count_nil, c1]
  · rw [hT]
    rcases hpm : env.pullMergeRecovery.success with _ | _ <;>
      rcases hpr : env.pushRetry.success with _ | _ <;>
      simp [sync_repo_push, h5, h6', hpm, hpr, List.count_append,
        List.count_cons, List.count_nil, c2]
  · rw [hT]
    rcases hpm : env.pullMergeRecovery.success with _ | _ <;>
      rcases hpr : env.pushRetry.success with _ | _ <;>
      simp [sync_repo_push, h5, h6', hpm, hpr, List.count_append,
        List.count_cons, List.count_nil, c3]
  · intro hpm hpr
    rw [hT]
    simp [sync_repo_push, h5, h6', hpm, hpr]
  · intro hpm
    rw [hT]
    simp [sync_repo_push, h5, h6', hpm]

/-- Claim C8: with no remote configured (the remote get-url check fails) the
synchronization protocol fails with the no-remote error and its trace is the
remote check alone: no branch creation, pull, commit, or push step ran. -/

theorem C8_no_remote_short_circuit (env : GitEnv)
    (h : env.remoteGetUrl.success = false) :
    (sync_repo env).1 = .error .noRemoteConfigured ∧
    (sync_repo env).2 = [GitStep.remoteCheck] := by
  constructor <;> simp [sync_repo, h]

/-- Claim C1 witness: in the concrete environment, exactly one recovery
pull-merge runs and the failing retry surfaces its stderr. -/

theorem C1_single_push_recovery_witness :
    (sync_repo envC1W).2.count GitStep.pullMerge = 1 ∧
    (sync_repo envC1W).1 = .error (.pushRetryFailed "remote rejected again") := by
  refine ⟨?_, ?_⟩
  · exact (C1_single_push_recovery envC1W rfl (Or.inl rfl) rfl
      (fun h => absurd rfl h) rfl (Or.inr (by decide))).2.1
  · exact (C1_single_push_recovery envC1W rfl (Or.inl rfl) rfl
      (fun h => absurd rfl h) rfl (Or.inr (by decide))).2.2.2.1 rfl rfl

/-- Claim C8 witness: the concrete no-remote environment fails with the
no-remote error after the remote check alone. -/

theorem C8_no_remote_short_circuit_witness :
    (sync_repo envC8W).1 = .error .noRemoteConfigured ∧
    (sync_repo envC8W).2 = [GitStep.remoteCheck] :=
  C8_no_remote_short_circuit envC8W rfl

theorem pathExists_of_lookup_dir (fs : FsMap) (t : List String)
    (h : lookupKV fs t = some FsNode.dir) : pathExists fs t = true := by
  simp [pathExists, resolveExists, h]

theorem pathExists_of_lookup_none (fs : FsMap) (t : List String)
    (h : lookupKV fs t = none) : pathExists fs t = false := by
  simp [pathExists, resolveExists, h]

/-- Claim C4 counterexample: with the target path occupied by a directory,
the link operation does not remove it and proceed; the `remove_file` call
fails and the whole operation aborts with the removal error. -/

theorem C4_counterexample_directory_target_aborts :
    create_link ⟨true, true⟩ [(["orig"], FsNode.file), (["tgt"], FsNode.dir)]
      ["orig"] ["tgt"] = .error (.removeExistingFailed ["tgt"]) := by rfl

/-- Claim C4 (amended): when the target path exists as a regular file or as
a symbolic link whose target exists, it is unconditionally removed first,
with no backup, and the operation proceeds with the link creation on the
state with that entry erased; but when the existing target is a directory,
the file-removal call fails and the operation aborts with the removal
error instead of proceeding. -/

theorem C4_existing_target_removed_except_directory (env : FsEnv) (fs : FsMap)
    (o t : List String) :
    (lookupKV fs t = some FsNode.dir →
      create_link env fs o t = .error (.removeExistingFailed t)) ∧
    (pathExists fs t = true → lookupKV fs t ≠ some FsNode.dir →
      create_link env fs o t = create_link_after_remove env (eraseKV fs t) o t) := by
  constructor
  · intro h
    have hex := pathExists_of_lookup_dir fs t h
    simp [create_link, hex, removeFile, h]
  · intro hex hne
    rcases hl : lookupKV fs t with _ | n
    · rw [pathExists_of_lookup_none fs t hl] at hex
      cases hex
    · cases n with
      | file => simp [create_link, hex, removeFile, hl]
      | dir => exact absurd hl hne
      | symlinkTo tgt => simp [create_link, hex, removeFile, hl]

/-- Claim C4 witness: the amended statement evaluated at a directory target
and at a regular-file target. -/

theorem C4_existing_target_removed_except_directory_witness :
    (create_link ⟨true, true⟩ [(["o"], FsNode.file), (["t"], FsNode.dir)]
      ["o"] ["t"] = .error (.removeExistingFailed ["t"])) ∧
    (create_link ⟨true, true⟩ [(["o"], FsNode.file), (["t"], FsNode.file)]
      ["o"] ["t"] =
      create_link_after_remove ⟨true, true⟩
        (eraseKV [(["o"], FsNode.file), (["t"], FsNode.file)] ["t"])
        ["o"] ["t"]) := by
  constructor
  · exact (C4_existing_target_removed_except_directory ⟨true, true⟩
      [(["o"], FsNode.file), (["t"], FsNode.dir)] ["o"] ["t"]).1 rfl
  · exact (C4_existing_target_removed_except_directory ⟨true, true⟩
      [(["o"], FsNode.file), (["t"], FsNode.file)] ["o"] ["t"]).2 rfl
      (by decide)

/-- Claim C5 counterexample: a hard-link failure does not always end in
success. With the target path occupied by a dangling symlink (so the
existence check sees nothing to remove), the hard link fails because the
path is occupied, the fallback symlink fails for the same reason, and the
fallback failure is surfaced as an error. -/

theorem C5_counterexample_fallback_can_fail :
    create_link ⟨true, true⟩
      [(["o"], FsNode.file), (["t"], FsNode.symlinkTo ["gone"])]
      ["o"] ["t"] = .error (.symlinkCreateFailed ["o"] ["t"]) := by rfl

/-- Claim C5 (amended): for a non-directory original, any hard-link failure
triggers the symlink fallback and the hard-link failure itself is never
surfaced: the operation succeeds (reporting the symlink mechanism) exactly
when the fallback symlink creation succeeds, and a failure of the fallback
symlink creation is surfaced as the fatal symlink error; for a directory
original a symbolic link is created directly (no hard link attempt) and any
failure of that symlink creation is fatal and surfaced. Stated on states
where the target path is unoccupied and its parent exists. -/

theorem C5_hard_link_fallback_policy (env : FsEnv) (fs : FsMap)
    (o t : List String) (ht : lookupKV fs t = none) (htne : t ≠ [])
    (hpar : pathExists fs t.dropLast = true) :
    (pathIsDir fs o = false → (∃ msg, hardLink env fs o t = .error msg) →
      env.symlinkOk = true →
      create_link env fs o t = .ok ((t, FsNode.symlinkTo o) :: fs, .sym)) ∧
    (pathIsDir fs o = false → (∃ msg, hardLink env fs o t = .error msg) →
      env.symlinkOk = false →
      create_link env fs o t = .error (.symlinkCreateFailed o t)) ∧
    (pathIsDir fs o = true → env.symlinkOk = true →
      create_link env fs o t = .ok ((t, FsNode.symlinkTo o) :: fs, .sym)) ∧
    (pathIsDir fs o = true → env.symlinkOk = false →
      create_link env fs o t = .error (.symlinkCreateFailed o t)) := by
  have hex := pathExists_of_lookup_none fs t ht
  refine ⟨?_, ?_, ?_, ?_⟩
  · rintro hdir ⟨msg, hmsg⟩ hsym
    simp [create_link, hex, create_link_after_remove, htne, hpar, hdir, hmsg,
      create_symlink, symlinkRaw, ht, hsym]
  · rintro hdir ⟨msg, hmsg⟩ hsym
    simp [create_link, hex, create_link_after_remove, htne, hpar, hdir, hmsg,
      create_symlink, symlinkRaw, ht, hsym]
  · intro hdir hsym
    simp [create_link, hex, create_link_after_remove, htne, hpar, hdir,
      create_symlink, symlinkRaw, ht, hsym]
  · intro hdir hsym
    simp [create_link, hex, create_link_after_remove, htne, hpar, hdir,
      create_symlink, symlinkRaw, ht, hsym]

/-- Claim C5 witness: the amended policy evaluated concretely: a cross-device
hard-link failure falls back to a successful symlink, and a directory
original with a forbidden symlink surfaces the fatal error. -/

theorem C5_hard_link_fallback_policy_witness :
    (create_link ⟨false, true⟩ [(["p"], FsNode.dir), (["o"], FsNode.file)]
      ["o"] ["p", "t"] =
      .ok ((["p", "t"], FsNode.symlinkTo ["o"]) ::
        [(["p"], FsNode.dir), (["o"], FsNode.file)], .sym)) ∧
    (create_link ⟨true, false⟩ [(["p"], FsNode.dir), (["d"], FsNode.dir)]
      ["d"] ["p", "t"] = .error (.symlinkCreateFailed ["d"] ["p", "t"])) := by
  constructor
  · exact (C5_hard_link_fallback_policy ⟨false, true⟩
      [(["p"], FsNode.dir), (["o"], FsNode.file)] ["o"] ["p", "t"]
      (by decide) (by decide) (by decide)).1 (by decide)
      ⟨"Invalid cross-device link", rfl⟩ rfl
  · exact (C5_hard_link_fallback_policy ⟨true, false⟩
      [(["p"], FsNode.dir), (["d"], FsNode.dir)] ["d"] ["p", "t"]
      (by decide) (by decide) (by decide)).2.2.2 (by decide) rfl

theorem scanDisk_lookup_not_mem (old : List (String × RepoInfo)) (now : Nat)
    (disk : List DiskRepo) (n : String) (h : ∀ d ∈ disk, d.name ≠ n) :
    lookupKV (scanDisk old now disk).1 n = none := by
  induction disk with
  | nil => simp [scanDisk, lookupKV]
  | cons d rest ih =>
      have hd : d.name ≠ n := h d (List.mem_cons_self d rest)
      have hrest : ∀ d' ∈ rest, d'.name ≠ n :=
        fun d' hm => h d' (List.mem_cons_of_mem d hm)
      simp [scanDisk, lookupKV_insertKV, hd, ih hrest]

theorem scanDisk_lookup_mem (old : List (String × RepoInfo)) (now : Nat)
    (disk : List DiskRepo) (d : DiskRepo)
    (hnd : (disk.map DiskRepo.name).Nodup) (hm : d ∈ disk) :
    lookupKV (scanDisk old now disk).1 d.name =
      some (refreshEntry old now d) := by
  induction disk with
  | nil => cases hm
  | cons d0 rest ih =>
      rcases List.mem_cons.mp hm with he | hr
      · subst he
        simp [scanDisk, lookupKV_insertKV]
      · have hne : d0.name ≠ d.name := by
          intro hcontra
          have : d.name ∈ rest.map DiskRepo.name := List.mem_map_of_mem _ hr
          rw [← hcontra] at this
          exact (List.nodup_cons.mp (by simpa using hnd)).1 this
        have hnd' : (rest.map DiskRepo.name).Nodup :=
          (List.nodup_cons.mp (by simpa using hnd)).2
        simp [scanDisk, lookupKV_insertKV, hne, ih hnd' hr]

/-- Claim C9 counterexample: refresh does not fully replace the map for
every on-disk root content. When the repository root directory itself does
not exist (config.rs lines 197-199), refresh returns immediately: a prior
state with one repository and nonzero totals is retained unchanged, with
total_repos still 1 and the stale entry still in the map, not zeroed. -/

theorem C9_counterexample_missing_root_no_op :
    AppInfo.refresh_from_disk
      ⟨"1", 0, 5, [("a", ⟨"a", 3, 4, 7, none⟩)], 1, 7⟩ none 9 =
      ⟨"1", 0, 5, [("a", ⟨"a", 3, 4, 7, none⟩)], 1, 7⟩ ∧
    (AppInfo.refresh_from_disk
      ⟨"1", 0, 5, [("a", ⟨"a", 3, 4, 7, none⟩)], 1, 7⟩ none 9).total_repos ≠ 0 := by
  exact ⟨rfl, by decide⟩

/-- Claim C9 (amended): when the repository root directory exists, refresh
fully replaces the repository map with what is on disk: names absent from
disk are dropped entirely, a repository already known keeps its original
creation timestamp, and refreshing against an existing-but-empty root (the
only repository deleted) yields zero total repositories, zero total files,
and an empty map regardless of the previous state; when the root directory
itself does not exist, refresh is a no-op that retains the previous
record. -/

theorem C9_refresh_replaces_map_when_root_exists (info : AppInfo)
    (disk : List DiskRepo) (now : Nat) :
    (∀ n, (∀ d ∈ disk, d.name ≠ n) →
      lookupKV (info.refresh_from_disk (some disk) now).repositories n = none) ∧
    ((disk.map DiskRepo.name).Nodup → ∀ d ∈ disk, ∀ e,
      lookupKV info.repositories d.name = some e →
      lookupKV (info.refresh_from_disk (some disk) now).repositories d.name =
        some (refreshEntry info.repositories now d) ∧
      (refreshEntry info.repositories now d).created_at = e.created_at) ∧
    ((info.refresh_from_disk (some []) now).total_repos = 0 ∧
     (info.refresh_from_disk (some []) now).total_files = 0 ∧
     (info.refresh_from_disk (some []) now).repositories = []) ∧
    (info.refresh_from_disk none now = info) := by
  refine ⟨?_, ?_, by simp [AppInfo.refresh_from_disk, scanDisk], rfl⟩
  · intro n h
    simpa [AppInfo.refresh_from_disk] using
      scanDisk_lookup_not_mem info.repositories now disk n h
  · intro hnd d hm e he
    refine ⟨?_, ?_⟩
    · simpa [AppInfo.refresh_from_disk] using
        scanDisk_lookup_mem info.repositories now disk d hnd hm
    · simp [refreshEntry, he]

/-- Claim C9 witness: refreshing a nonempty previous state against an
existing root holding one known repository keeps its creation timestamp,
drops the vanished name, and the existing-but-empty-root refresh zeroes the
aggregate state. -/

theorem C9_refresh_replaces_map_when_root_exists_witness :
    (lookupKV
      (AppInfo.refresh_from_disk
        ⟨"1", 0, 5, [("a", ⟨"a", 3, 4, 7, none⟩), ("b", ⟨"b", 1, 2, 9, none⟩)],
          2, 16⟩
        (some [⟨"a", 7, none⟩]) 9).repositories "b" = none) ∧
    (lookupKV
      (AppInfo.refresh_from_disk
        ⟨"1", 0, 5, [("a", ⟨"a", 3, 4, 7, none⟩), ("b", ⟨"b", 1, 2, 9, none⟩)],
          2, 16⟩
        (some [⟨"a", 7, none⟩]) 9).repositories "a" =
      some ⟨"a", 3, 9, 7, none⟩) ∧
    ((AppInfo.refresh_from_disk
        ⟨"1", 0, 5, [("a", ⟨"a", 3, 4, 7, none⟩), ("b", ⟨"b", 1, 2, 9, none⟩)],
          2, 16⟩
        (some []) 9).total_repos = 0) := by
  refine ⟨?_, ?_, ?_⟩
  · exact (C9_refresh_replaces_map_when_root_exists
      ⟨"1", 0, 5, [("a", ⟨"a", 3, 4, 7, none⟩), ("b", ⟨"b", 1, 2, 9, none⟩)],
        2, 16⟩ [⟨"a", 7, none⟩] 9).1 "b" (by decide)
  · have h := (C9_refresh_replaces_map_when_root_exists
      ⟨"1", 0, 5, [("a", ⟨"a", 3, 4, 7, none⟩), ("b", ⟨"b", 1, 2, 9, none⟩)],
        2, 16⟩ [⟨"a", 7, none⟩] 9).2.1 (by decide) ⟨"a", 7, none⟩
      (by decide) ⟨"a", 3, 4, 7, none⟩ (by decide)
    exact h.1.trans (by decide)
  · exact (C9_refresh_replaces_map_when_root_exists
      ⟨"1", 0, 5, [("a", ⟨"a", 3, 4, 7, none⟩), ("b", ⟨"b", 1, 2, 9, none⟩)],
        2, 16⟩ [⟨"a", 7, none⟩] 9).2.2.1.1

/-- Claim C10: after each mutating aggregate operation (add, remove, update,
refresh) the total_repos counter equals the size of the repository map
(assuming the invariant held before, which update leaves untouched), and
total_files never underflows: removal subtracts the removed file count with
saturation at zero (it never exceeds the previous total), and an update
replaces the old count by saturating subtraction before adding the new. -/

theorem C10_aggregate_invariants (info : AppInfo) (n : String)
    (u : Option String) (fc now : Nat) (odisk : Option (List DiskRepo))
    (h : info.total_repos = info.repositories.length) :
    ((info.add_repository n u now).total_repos =
      (info.add_repository n u now).repositories.length) ∧
    ((info.remove_repository n now).total_repos =
      (info.remove_repository n now).repositories.length) ∧
    ((info.remove_repository n now).total_files ≤ info.total_files) ∧
    ((info.update_repository n fc now).total_repos =
      (info.update_repository n fc now).repositories.length) ∧
    (∀ e, lookupKV info.repositories n = some e →
      (info.update_repository n fc now).total_files =
        info.total_files - e.file_count + fc) ∧
    ((info.refresh_from_disk odisk now).total_repos =
      (info.refresh_from_disk odisk now).repositories.length) := by
  refine ⟨by simp [AppInfo.add_repository], by simp [AppInfo.remove_repository],
    ?_, ?_, ?_, ?_⟩
  · rcases hl : lookupKV info.repositories n with _ | e
    · simp [AppInfo.remove_repository, hl]
    · simp only [AppInfo.remove_repository, hl]
      exact Nat.sub_le _ _
  · rcases hl : lookupKV info.repositories n with _ | e
    · simpa [AppInfo.update_repository, hl] using h
    · simp only [AppInfo.update_repository, hl]
      rw [length_insertKV_of_lookup_some info.repositories n e _ hl]
      exact h
  · intro e he
    simp [AppInfo.update_repository, he]
  · rcases odisk with _ | entries
    · simpa [AppInfo.refresh_from_disk] using h
    · simp [AppInfo.refresh_from_disk]

/-- Claim C10 witness: the invariants evaluated on a concrete aggregate
state holding two repositories, where the removed file count exceeds the
stored total (saturation hits zero). -/

theorem C10_aggregate_invariants_witness :
    ((AppInfo.remove_repository
      ⟨"1", 0, 0, [("a", ⟨"a", 0, 0, 9, none⟩), ("b", ⟨"b", 0, 0, 2, none⟩)],
        2, 5⟩ "a" 3).total_files ≤ 5) ∧
    ((AppInfo.update_repository
      ⟨"1", 0, 0, [("a", ⟨"a", 0, 0, 9, none⟩), ("b", ⟨"b", 0, 0, 2, none⟩)],
        2, 5⟩ "a" 4 3).total_files = 5 - 9 + 4) ∧
    ((AppInfo.add_repository
      ⟨"1", 0, 0, [("a", ⟨"a", 0, 0, 9, none⟩), ("b", ⟨"b", 0, 0, 2, none⟩)],
        2, 5⟩ "c" none 3).total_repos =
     (AppInfo.add_repository
      ⟨"1", 0, 0, [("a", ⟨"a", 0, 0, 9, none⟩), ("b", ⟨"b", 0, 0, 2, none⟩)],
        2, 5⟩ "c" none 3).repositories.length) := by
  refine ⟨?_, ?_, ?_⟩
  · exact (C10_aggregate_invariants
      ⟨"1", 0, 0, [("a", ⟨"a", 0, 0, 9, none⟩), ("b", ⟨"b", 0, 0, 2, none⟩)],
        2, 5⟩ "a" none 4 3 none (by decide)).2.2.1
  · exact (C10_aggregate_invariants
      ⟨"1", 0, 0, [("a", ⟨"a", 0, 0, 9, none⟩), ("b", ⟨"b", 0, 0, 2, none⟩)],
        2, 5⟩ "a" none 4 3 none (by decide)).2.2.2.2.1 ⟨"a", 0, 0, 9, none⟩
      (by decide)
  · exact (C10_aggregate_invariants
      ⟨"1", 0, 0, [("a", ⟨"a", 0, 0, 9, none⟩), ("b", ⟨"b", 0, 0, 2, none⟩)],
        2, 5⟩ "c" none 4 3 none (by decide)).1
